import Mathlib

/-!
Verification development for the Aura tutoring-agent core: the ControlPlane
(request validation, routing, audit logging) from
`src/agentic_system/src/control_plane.py`, the multi-language code runner
`ToolRegistry.run_code`, and the guarded filesystem tools
`ToolRegistry.write_file` / `ToolRegistry.delete_file` from
`src/agentic_system/src/tools.py`.

The embedding is shallow: Python dicts returned at distinct return sites
become constructors of an inductive result type; the outside world
(subprocesses, the temp-file machinery, `os.path.abspath`) is an explicit
environment value consulted exactly where the source consults it; a raised
Python exception is `Except.error`.  Machine-level details that the claims do
not touch (timestamps' format, the bytes of file contents) are carried as
opaque strings.
-/

namespace Aura

/-- Python exception values that can cross the boundaries the claims are
about.  `unboundLocal` models Python's `UnboundLocalError` (a subclass of
`NameError`) raised when a never-assigned local is read. -/
inductive PyExn where
  | typeError (msg : String)
  | unboundLocal (name : String)
  | osError (msg : String)
  | timeoutExpired
deriving DecidableEq, Repr

/-- `str(e)` as used in the source's error messages. -/
def PyExn.str : PyExn → String
  | .typeError m => m
  | .unboundLocal n => "cannot access local variable " ++ n
  | .osError m => m
  | .timeoutExpired => "timeout"

/-- A parameter mapping: keys with opaque values.  Only its length and
identity matter to the control plane, which passes it through unexamined. -/
abbrev Params := List (String × String)

/-- The dict plans accepted by `ControlPlane.execute`: `plan.get("action")`
(`none` when the key is absent or `None`) and
`plan.get("parameters", {})` (missing key collapses to `[]`). -/
structure Plan where
  action : Option String
  params : Params
deriving DecidableEq, Repr

/-- `self.safety_rules["allowed_tools"]` from `ControlPlane.__init__`. -/
def allowed_tools : List String :=
  ["search_knowledge", "assess_understanding",
   "update_learner_profile", "log_interaction",
   "read_file", "list_directory",
   "ingest_document", "analyze_image",
   "write_file", "delete_file",
   "web_search", "fetch_url", "execute_command",
   "run_code", "set_assignment"]

/-- `self.safety_rules["max_tools_per_request"]` from `ControlPlane.__init__`
(defined there but never read by `_validate_request`, which compares against
the literal 10). -/
def max_tools_per_request : Nat := 5

/-- Python `'(' in action`. -/
def hasParen (a : String) : Bool := a.toList.contains '('

/-- Python `action.split('(')[0]`: the characters before the first paren
(the whole string when none occurs). -/
def beforeParen (a : String) : String :=
  String.mk (a.toList.takeWhile (fun c => !(c == '(')))

/-- Python `str.strip()`: whitespace removed from both ends. -/
def pyStrip (a : String) : String :=
  String.mk
    (((a.toList.dropWhile Char.isWhitespace).reverse.dropWhile
        Char.isWhitespace).reverse)

/-- `action.split('(')[0].strip() if '(' in action else action` from
`ControlPlane._validate_request`. -/
def stripAction (a : String) : String :=
  if hasParen a then pyStrip (beforeParen a) else a

/-- Python truthiness of `plan.get("action")`: `None` and `""` are falsy. -/
def truthy : Option String → Bool
  | none => false
  | some s => !s.isEmpty

/-- `ControlPlane._validate_request` for dict plans: the whitelist check is
guarded by the truthiness of `action` (absent or empty actions skip it), the
fallback strips a parenthesized suffix, and the parameter-count check
compares against the literal 10. -/
def validate_request (plan : Plan) : Bool :=
  let actionOk :=
    if truthy plan.action && !(allowed_tools.contains (plan.action.getD "")) then
      allowed_tools.contains (stripAction (plan.action.getD ""))
    else
      true
  actionOk && decide (plan.params.length ≤ 10)

/-- A value returned by a tool handler, as far as the control plane looks at
it: either an error dict `{"error": msg}` built by the router, or an opaque
payload from a tool. -/
inductive RValue where
  | errorMsg (msg : String)
  | val (v : String)
deriving DecidableEq, Repr

/-- One entry of `self.execution_log`: timestamp, the full plan, the raw
result. -/
structure AuditEntry where
  timestamp : String
  plan : Plan
  result : RValue
deriving DecidableEq, Repr

/-- The tool handlers behind `tool_map`, abstracted: invoking a handler on a
parameter mapping either returns a value or raises (e.g. `TypeError` when the
keyword arguments do not match the handler's signature). -/
abbrev Handlers := String → Params → Except PyExn RValue

/-- The keys of `tool_map` in `ControlPlane._route_and_execute`. -/
def tool_map_keys : List String :=
  ["search_knowledge", "assess_understanding",
   "update_learner_profile", "log_interaction",
   "read_file", "list_directory",
   "ingest_document", "analyze_image",
   "write_file", "delete_file",
   "web_search", "fetch_url", "execute_command",
   "run_code", "set_assignment"]

/-- `ControlPlane._route_and_execute`: dict lookup of the (unstripped) action
and invocation with `**params`; a missing key yields the
`{"error": "unknown action: ..."}` dict (for `action = None`, Python's
f-string renders `"unknown action: None"`).  The second component is the
trace of handler invocations actually performed. -/
def route_and_execute (handlers : Handlers) (action : Option String)
    (params : Params) : Except PyExn RValue × List (String × Params) :=
  match action with
  | some a =>
      if tool_map_keys.contains a then (handlers a params, [(a, params)])
      else (.ok (.errorMsg ("unknown action: " ++ a)), [])
  | none => (.ok (.errorMsg "unknown action: None"), [])

/-- The dicts returned by `ControlPlane.execute`: the rejection dict
`{"error": "safety validation failed", "plan": plan}` (which has no
"success" key at all), or the success envelope. -/
inductive Envelope where
  | safetyFailed (plan : Plan)
  | success (action : Option String) (result : RValue) (executionCount : Nat)
      (safetyChecksPassed : Bool)
deriving DecidableEq, Repr

/-- `envelope.get("success")`: absent on the rejection dict. -/
def Envelope.successField : Envelope → Option Bool
  | .safetyFailed _ => none
  | .success _ _ _ _ => some true

/-- `envelope.get("error")`. -/
def Envelope.errorField : Envelope → Option String
  | .safetyFailed _ => some "safety validation failed"
  | .success _ _ _ _ => none

/-- `ControlPlane.execute`: validate, route, append one audit entry, return
the envelope.  A handler exception propagates before the append.  Returns
(envelope or exception, new audit log, handler-invocation trace). -/
def execute (handlers : Handlers) (ts : String) (log : List AuditEntry)
    (plan : Plan) : Except PyExn Envelope × List AuditEntry × List (String × Params) :=
  if !validate_request plan then
    (.ok (.safetyFailed plan), log, [])
  else
    match route_and_execute handlers plan.action plan.params with
    | (.error e, tr) => (.error e, log, tr)
    | (.ok r, tr) =>
        let log' := log ++ [⟨ts, plan, r⟩]
        (.ok (.success plan.action r log'.length true), log', tr)

/-- A sequence of `execute` calls against the same ControlPlane, threading
the audit log; returns the final log and the per-call outcomes. -/
def runSeq (handlers : Handlers) (calls : List (String × Plan))
    (log : List AuditEntry) : List AuditEntry × List (Except PyExn Envelope) :=
  match calls with
  | [] => (log, [])
  | (ts, p) :: rest =>
      let step := execute handlers ts log p
      let next := runSeq handlers rest step.2.1
      (next.1, step.1 :: next.2)

/-- Whether a call returned an envelope whose success field is `True`. -/
def isSuccessTrue : Except PyExn Envelope → Bool
  | .ok e => e.successField == some true
  | .error _ => false

/-! ## The multi-language code runner `ToolRegistry.run_code` -/

/-- One row of `lang_config` in `run_code`: source extension, interpreter
command (empty for compiled languages), whether a compile step runs, and the
compiler binary (`rustc` is special-cased in the source; `gcc`/`g++` come
from the `compiler` key). -/
structure LangCfg where
  ext : String
  cmd : List String
  compile : Bool
  compiler : String
deriving DecidableEq, Repr

/-- The `lang_config` dict of `run_code`. -/
def lang_config : List (String × LangCfg) :=
  [("python", ⟨".py", ["python3"], false, ""⟩),
   ("javascript", ⟨".js", ["node"], false, ""⟩),
   ("go", ⟨".go", ["go", "run"], false, ""⟩),
   ("rust", ⟨".rs", [], true, "rustc"⟩),
   ("c", ⟨".c", [], true, "gcc"⟩),
   ("cpp", ⟨".cpp", [], true, "g++"⟩)]

/-- What a spawned child process would do if left alone: how many seconds it
needs, and its exit code and captured output when it finishes. -/
structure ProcRun where
  duration : Nat
  exitCode : Int
  stdout : String
  stderr : String
deriving DecidableEq, Repr

/-- Behaviour of one `subprocess.run` call site: either a process runs, or
the spawn itself raises (missing toolchain and the like). -/
inductive ProcBehavior where
  | runs (p : ProcRun)
  | raises (e : PyExn)
deriving DecidableEq, Repr

/-- Outcome of `subprocess.run(..., timeout=t)`. -/
inductive SubpResult where
  | timeout
  | exn (e : PyExn)
  | completed (p : ProcRun)
deriving DecidableEq, Repr

/-- `subprocess.run` with a wall-clock timeout: a process needing more than
`timeoutSec` seconds is killed and `TimeoutExpired` is raised. -/
def subprocessRun (timeoutSec : Nat) (b : ProcBehavior) : SubpResult :=
  match b with
  | .raises e => .exn e
  | .runs p => if p.duration > timeoutSec then .timeout else .completed p

/-- Outcome of the `tempfile.NamedTemporaryFile(delete=False)` block: the
file is created and written, or the constructor raises (no file on disk), or
the file is created but `f.write` raises (the file stays on disk and the
local `temp_path` is never assigned). -/
inductive MatOutcome where
  | ok
  | createFail (e : PyExn)
  | writeFail (e : PyExn)
deriving DecidableEq, Repr

/-- The host environment one `run_code` call runs against: the base name
(without extension) `tempfile` would pick, the fate of the materialization
step, and the behaviour of the compile and execute child processes.
Environment assumptions baked in: a compile that exits non-zero, times out or
fails to spawn does not create the output binary, and the executed program
does not itself touch the two tracked paths. -/
structure SandboxEnv where
  tmpBase : String
  mat : MatOutcome
  compileProc : ProcBehavior
  execProc : ProcBehavior
deriving Repr

/-- The filesystem as a set of existing paths (`os.path.exists`). -/
abbrev FS := String → Bool

def fsAdd (p : String) (fs : FS) : FS := fun q => if q = p then true else fs q

def fsRemove (p : String) (fs : FS) : FS := fun q => if q = p then false else fs q

/-- `if os.path.exists(p): os.remove(p)`. -/
def condRemove (p : String) (fs : FS) : FS :=
  if fs p then fsRemove p fs else fs

/-- The dicts returned by `run_code`, one constructor per return site:
`{"error": msg}`, the compilation-error dict, and the success dict. -/
inductive RCResult where
  | errorMsg (msg : String)
  | compilationError (language stderr : String) (returncode : Int)
  | success (language stdout stderr : String) (returncode : Int)
deriving DecidableEq, Repr

/-- The message of the `except subprocess.TimeoutExpired` return of
`run_code`. -/
def timeoutMsg : String :=
  "code execution timed out (10s limit for execution, 30s for compilation)"

/-- The unsupported-language error message (Python list repr flattened). -/
def unsupportedMsg (language : String) : String :=
  "unsupported language: " ++ language ++
    ". Supported: [python, javascript, go, rust, c, cpp]"

/-- The generic `except Exception` message of `run_code`. -/
def runFailMsg (language : String) (e : PyExn) : String :=
  "failed to run " ++ language ++ " code: " ++ e.str

/-- The body of `run_code` once the language row `cfg` has been found.
Mirrors the source line by line: materialization (`delete=False`, so the
file survives the `with` block); conditional compile with `timeout=30` whose
non-zero exit removes only the source file; execution with `timeout=10`;
cleanup `os.remove(temp_path)` plus conditional removal of `output_path`;
and the `except` blocks, whose first statement
`if os.path.exists(temp_path)` raises `UnboundLocalError` when
materialization failed before `temp_path` was assigned. -/
def run_code_cfg (env : SandboxEnv) (fs : FS) (cfg : LangCfg)
    (language : String) : Except PyExn RCResult × FS :=
  match env.mat with
    | .createFail _ => (.error (.unboundLocal "temp_path"), fs)
    | .writeFail _ => (.error (.unboundLocal "temp_path"), fsAdd (env.tmpBase ++ cfg.ext) fs)
    | .ok =>
      let temp_path := env.tmpBase ++ cfg.ext
      let fs1 := fsAdd temp_path fs
      if cfg.compile then
        let output_path := temp_path.replace cfg.ext ""
        match subprocessRun 30 env.compileProc with
        | .timeout =>
            (.ok (.errorMsg timeoutMsg), condRemove output_path (condRemove temp_path fs1))
        | .exn e =>
            (.ok (.errorMsg (runFailMsg language e)),
             condRemove output_path (condRemove temp_path fs1))
        | .completed p =>
            if p.exitCode ≠ 0 then
              (.ok (.compilationError language p.stderr p.exitCode), fsRemove temp_path fs1)
            else
              let fs2 := fsAdd output_path fs1
              match subprocessRun 10 env.execProc with
              | .timeout =>
                  (.ok (.errorMsg timeoutMsg), condRemove output_path (condRemove temp_path fs2))
              | .exn e =>
                  (.ok (.errorMsg (runFailMsg language e)),
                   condRemove output_path (condRemove temp_path fs2))
              | .completed q =>
                  (.ok (.success language q.stdout q.stderr q.exitCode),
                   condRemove output_path (fsRemove temp_path fs2))
      else
        match subprocessRun 10 env.execProc with
        | .timeout => (.ok (.errorMsg timeoutMsg), condRemove temp_path fs1)
        | .exn e => (.ok (.errorMsg (runFailMsg language e)), condRemove temp_path fs1)
        | .completed q =>
            (.ok (.success language q.stdout q.stderr q.exitCode), fsRemove temp_path fs1)

/-- `ToolRegistry.run_code`: unsupported-language early return, then the
staged body above.  The `code` string itself lands in the temp file, whose
content the filesystem model does not track. -/
def run_code (env : SandboxEnv) (fs : FS) (code : String) (language : String) :
    Except PyExn RCResult × FS :=
  match lang_config.lookup language with
  | none => (.ok (.errorMsg (unsupportedMsg language)), fs)
  | some cfg => run_code_cfg env fs cfg language

/-- The stdout string the caller reads off a `run_code` outcome ("" when the
call did not return a success dict). -/
def rcStdout : Except PyExn RCResult × FS → String
  | (.ok (.success _ so _ _), _) => so
  | _ => ""

/-- The claim that `run_code` size-bounds the captured stdout it returns:
some fixed bound dominates the stdout field of every possible call. -/
def run_code_stdout_bounded : Prop :=
  ∃ N, ∀ (env : SandboxEnv) (fs : FS) (code language : String),
    (rcStdout (run_code env fs code language)).length ≤ N

/-! ## The guarded filesystem tools `write_file` / `delete_file` -/

/-- `self.safe_write_directories` from `ToolRegistry.__init__`. -/
def safe_write_directories : List String := ["/app/uploads", "/tmp"]

/-- Python `s.startswith(d)`. -/
def pyStartswith (s d : String) : Bool := d.toList.isPrefixOf s.toList

/-- Host services the filesystem tools consult: `os.path.abspath`, and
whether the `open(..., 'w')` call would raise (caught by the tool). -/
structure OSEnv where
  abspath : String → String
  openFail : Option PyExn

/-- Files as an association of path to content; lookups take the first hit. -/
abbrev FileMap := List (String × String)

/-- The dicts returned by `write_file` / `delete_file`, one constructor per
return site. -/
inductive FileResult where
  | permissionDenied (msg : String)
  | errorMsg (msg : String)
  | writeOk (path : String) (bytesWritten : Nat)
  | deleteOk (path : String)
deriving DecidableEq, Repr

/-- `open(p, 'w').write(c)`: create or overwrite. -/
def setFile (p c : String) (m : FileMap) : FileMap := (p, c) :: m

/-- `ToolRegistry.write_file`: canonicalize with `os.path.abspath`, test
`abs_path.startswith(safe_dir)` against each safe directory, refuse before
any mutation, otherwise write (the Python repr of the directory list in the
message is flattened). -/
def write_file (env : OSEnv) (fs : FileMap) (path content : String) :
    FileResult × FileMap :=
  let abs_path := env.abspath path
  let is_safe := safe_write_directories.any (fun d => pyStartswith abs_path d)
  if !is_safe then
    (.permissionDenied "permission denied: can only write to [/app/uploads, /tmp]", fs)
  else
    match env.openFail with
    | some e => (.errorMsg ("failed to write file: " ++ e.str), fs)
    | none => (.writeOk abs_path content.length, setFile abs_path content fs)

/-- `ToolRegistry.delete_file`: same canonicalize-then-startswith guard,
then an existence check, then `os.remove`. -/
def delete_file (env : OSEnv) (fs : FileMap) (path : String) :
    FileResult × FileMap :=
  let abs_path := env.abspath path
  let is_safe := safe_write_directories.any (fun d => pyStartswith abs_path d)
  if !is_safe then
    (.permissionDenied "permission denied: can only delete from safe directories", fs)
  else if (fs.lookup abs_path).isNone then
    (.errorMsg ("file not found: " ++ path), fs)
  else
    (.deleteOk abs_path, fs.filter (fun e => !(e.1 == abs_path)))

/-! ## Helper lemmas -/

theorem fsAdd_self (p : String) (fs : FS) : fsAdd p fs p = true := by
  simp [fsAdd]

theorem fsAdd_other {p q : String} (h : q ≠ p) (fs : FS) : fsAdd p fs q = fs q := by
  simp [fsAdd, h]

theorem fsRemove_self (p : String) (fs : FS) : fsRemove p fs p = false := by
  simp [fsRemove]

theorem fsRemove_other {p q : String} (h : q ≠ p) (fs : FS) : fsRemove p fs q = fs q := by
  simp [fsRemove, h]

theorem condRemove_self (p : String) (fs : FS) : condRemove p fs p = false := by
  unfold condRemove
  by_cases h : fs p = true
  · simp [h, fsRemove_self]
  · simp only [Bool.not_eq_true] at h
    simp [h]

theorem condRemove_other {p q : String} (h : q ≠ p) (fs : FS) :
    condRemove p fs q = fs q := by
  unfold condRemove
  by_cases hfp : fs p = true
  · simp [hfp, fsRemove_other h]
  · simp only [Bool.not_eq_true] at hfp
    simp [hfp]

theorem cr_cr_self₁ (t o : String) (fs : FS) :
    condRemove o (condRemove t fs) t = false := by
  by_cases h : t = o
  · rw [h]; exact condRemove_self o _
  · rw [condRemove_other h]; exact condRemove_self t fs

theorem cr_fr_self (t o : String) (fs : FS) :
    condRemove o (fsRemove t fs) t = false := by
  by_cases h : t = o
  · rw [h]; exact condRemove_self o _
  · rw [condRemove_other h]; exact fsRemove_self t fs

theorem fr_fa_other (t o : String) (fs : FS) (ho : fs o = false) :
    fsRemove t (fsAdd t fs) o = false := by
  by_cases h : o = t
  · rw [h]; exact fsRemove_self t _
  · rw [fsRemove_other h, fsAdd_other h]; exact ho

theorem cr_fa_other (t o : String) (fs : FS) (ho : fs o = false) :
    condRemove t (fsAdd t fs) o = false := by
  by_cases h : o = t
  · rw [h]; exact condRemove_self t _
  · rw [condRemove_other h, fsAdd_other h]; exact ho

theorem run_code_eq {env : SandboxEnv} {fs : FS} {code language : String}
    {cfg : LangCfg} (hl : lang_config.lookup language = some cfg) :
    run_code env fs code language = run_code_cfg env fs cfg language := by
  unfold run_code
  rw [hl]

theorem subprocessRun_runs_le {t : Nat} {p : ProcRun} (h : p.duration ≤ t) :
    subprocessRun t (.runs p) = .completed p := by
  show (if p.duration > t then SubpResult.timeout else .completed p) =
    .completed p
  rw [if_neg (by omega : ¬ p.duration > t)]

theorem subprocessRun_runs_gt {t : Nat} {p : ProcRun} (h : p.duration > t) :
    subprocessRun t (.runs p) = .timeout := by
  show (if p.duration > t then SubpResult.timeout else .completed p) = .timeout
  rw [if_pos h]

/-- One `execute` call grows the audit log by one exactly when it returns an
envelope whose success field is `True`, and leaves it unchanged otherwise. -/
theorem execute_log_length (handlers : Handlers) (ts : String)
    (log : List AuditEntry) (plan : Plan) :
    (execute handlers ts log plan).2.1.length =
      log.length +
        (if isSuccessTrue (execute handlers ts log plan).1 then 1 else 0) := by
  unfold execute
  cases hv : validate_request plan with
  | false => simp [isSuccessTrue, Envelope.successField]
  | true =>
    simp only [Bool.not_true, Bool.false_eq_true, if_false]
    rcases hr : route_and_execute handlers plan.action plan.params with ⟨r, tr⟩
    cases r with
    | error e => simp [isSuccessTrue]
    | ok v => simp [isSuccessTrue, Envelope.successField]

/-- Over any sequence of calls, the audit log length grows by exactly the
number of calls that returned an envelope with success `True`. -/
theorem runSeq_log_length (handlers : Handlers) :
    ∀ (calls : List (String × Plan)) (log : List AuditEntry),
      (runSeq handlers calls log).1.length =
        log.length + (runSeq handlers calls log).2.countP isSuccessTrue := by
  intro calls
  induction calls with
  | nil => intro log; simp [runSeq]
  | cons c rest ih =>
    intro log
    rcases c with ⟨ts, p⟩
    simp only [runSeq, List.countP_cons]
    rw [ih, execute_log_length]
    omega

/-- A handler environment that answers every invocation with an opaque
value. -/
def h0 : Handlers := fun _ _ => .ok (.val "")

/-- A handler environment whose handlers reject their keyword arguments, as
the real tool methods do when `params` does not match their signature. -/
def hRaise : Handlers := fun _ _ =>
  .error (.typeError "read_file() got an unexpected keyword argument bogus")

def planNoAction : Plan := ⟨none, []⟩

def fsEmpty : FS := fun _ => false

def osId : OSEnv := ⟨fun s => s, none⟩

/-! ## Claim theorems -/

/-- C1 (counterexample).  A plan with no action field at all is not rejected:
`_validate_request` skips the whitelist check for a falsy action, the router
returns the unknown-action error dict, the envelope reports success `True`
(not `False`), and the audit log grows from 0 to 1 entries — contradicting
the claim that such a plan yields a safety-validation failure with the log
unchanged. -/
theorem C1_counterexample_absent_action :
    execute h0 "t0" [] planNoAction =
      (.ok (.success none (.errorMsg "unknown action: None") 1 true),
       [⟨"t0", planNoAction, .errorMsg "unknown action: None"⟩], []) ∧
    (Envelope.success none (.errorMsg "unknown action: None") 1
        true).successField = some true := by
  exact ⟨rfl, rfl⟩

/-- C1 (amended).  For every plan whose action is present, non-empty, and —
also after stripping a parenthesized-argument suffix — not in the allowed
list, `execute` returns the rejection dict `{"error": "safety validation
failed", "plan": plan}` (which carries no success field at all, rather than
an explicit `success: false`), invokes no handler, and leaves the audit log
unchanged. -/
theorem C1_disallowed_action_fails_closed
    (handlers : Handlers) (ts : String) (log : List AuditEntry) (plan : Plan)
    (a : String) (ha : plan.action = some a) (hne : a.isEmpty = false)
    (h1 : allowed_tools.contains a = false)
    (h2 : allowed_tools.contains (stripAction a) = false) :
    execute handlers ts log plan = (.ok (.safetyFailed plan), log, []) ∧
    (Envelope.safetyFailed plan).errorField = some "safety validation failed" ∧
    (Envelope.safetyFailed plan).successField = none := by
  have hv : validate_request plan = false := by
    unfold validate_request
    rw [ha]
    simp only [truthy, Option.getD_some, hne, h1, h2, Bool.not_false,
      Bool.and_self, if_true, Bool.false_and]
  exact ⟨by simp [execute, hv], rfl, rfl⟩

/-- C1 (witness): a concrete plan invoking a tool outside the whitelist. -/
theorem C1_disallowed_action_fails_closed_witness :
    execute h0 "t1" [] ⟨some "format_disk", []⟩ =
      (.ok (.safetyFailed ⟨some "format_disk", []⟩), [], []) ∧
    (Envelope.safetyFailed ⟨some "format_disk", []⟩).errorField =
      some "safety validation failed" ∧
    (Envelope.safetyFailed ⟨some "format_disk", []⟩).successField = none :=
  C1_disallowed_action_fails_closed h0 "t1" [] ⟨some "format_disk", []⟩
    "format_disk" rfl rfl (by decide) (by decide)

/-- C2 (counterexample).  A call that passes validation but whose handler
raises (as the real tool methods do on a keyword-argument mismatch) appends
no audit entry at all — contradicting the claim that every call passing
validation appends exactly one entry. -/
theorem C2_counterexample_raising_handler :
    validate_request ⟨some "read_file", [("bogus", "1")]⟩ = true ∧
    execute hRaise "t3" [] ⟨some "read_file", [("bogus", "1")]⟩ =
      (.error
         (.typeError "read_file() got an unexpected keyword argument bogus"),
       [], [("read_file", [("bogus", "1")])]) :=
  ⟨by decide, rfl⟩

/-- C2 (amended).  (i) Every call that passes validation and whose routed
handler returns normally appends exactly one audit entry and reports
`executionCount` equal to the new log length, with `success: True`.
(ii) Over any sequence of calls the log length equals its starting length
plus the number of calls that returned `success: True`, and in particular it
never decreases. -/
theorem C2_audit_log_invariants :
    (∀ (handlers : Handlers) (ts : String) (log : List AuditEntry)
        (plan : Plan) (r : RValue) (tr : List (String × Params)),
        validate_request plan = true →
        route_and_execute handlers plan.action plan.params = (.ok r, tr) →
        execute handlers ts log plan =
          (.ok (.success plan.action r (log.length + 1) true),
           log ++ [⟨ts, plan, r⟩], tr)) ∧
    (∀ (handlers : Handlers) (calls : List (String × Plan))
        (log : List AuditEntry),
        (runSeq handlers calls log).1.length =
          log.length + (runSeq handlers calls log).2.countP isSuccessTrue ∧
        log.length ≤ (runSeq handlers calls log).1.length) := by
  constructor
  · intro handlers ts log plan r tr hv hr
    simp [execute, hv, hr]
  · intro handlers calls log
    refine ⟨runSeq_log_length handlers calls log, ?_⟩
    rw [runSeq_log_length handlers calls log]
    exact Nat.le_add_right _ _

/-- C2 (witness): one allowed call against an empty log appends one entry
and reports count 1. -/
theorem C2_audit_log_invariants_witness :
    execute h0 "t2" [] ⟨some "read_file", [("path", "/tmp/a")]⟩ =
      (.ok (.success (some "read_file") (.val "") 1 true),
       [⟨"t2", ⟨some "read_file", [("path", "/tmp/a")]⟩, .val ""⟩],
       [("read_file", [("path", "/tmp/a")])]) :=
  C2_audit_log_invariants.1 h0 "t2" [] ⟨some "read_file", [("path", "/tmp/a")]⟩
    (.val "") [("read_file", [("path", "/tmp/a")])] (by decide) rfl

def sixParams : Params :=
  [("p1", ""), ("p2", ""), ("p3", ""), ("p4", ""), ("p5", ""), ("p6", "")]

def elevenParams : Params :=
  [("q1", ""), ("q2", ""), ("q3", ""), ("q4", ""), ("q5", ""), ("q6", ""),
   ("q7", ""), ("q8", ""), ("q9", ""), ("q10", ""), ("q11", "")]

/-- C5 (counterexample).  A plan with 6 parameters — more than the
configured `max_tools_per_request = 5` — is not rejected: it is routed to its
handler and reported successful, because `_validate_request` compares the
parameter count against the literal 10, never reading the configured 5. -/
theorem C5_counterexample_six_params :
    sixParams.length > max_tools_per_request ∧
    execute h0 "t4" [] ⟨some "read_file", sixParams⟩ =
      (.ok (.success (some "read_file") (.val "") 1 true),
       [⟨"t4", ⟨some "read_file", sixParams⟩, .val ""⟩],
       [("read_file", sixParams)]) :=
  ⟨by decide, rfl⟩

/-- C5 (amended).  The ceiling actually enforced is the literal 10: every
plan with more than 10 parameters fails closed with the safety-validation
error, is not routed, and leaves the audit log unchanged. -/
theorem C5_param_ceiling_is_ten
    (handlers : Handlers) (ts : String) (log : List AuditEntry) (plan : Plan)
    (h : plan.params.length > 10) :
    execute handlers ts log plan = (.ok (.safetyFailed plan), log, []) := by
  have hd : decide (plan.params.length ≤ 10) = false :=
    decide_eq_false (Nat.not_le.mpr h)
  have hv : validate_request plan = false := by
    unfold validate_request
    simp only [hd, Bool.and_false]
  simp [execute, hv]

/-- C5 (witness): a concrete 11-parameter plan is rejected. -/
theorem C5_param_ceiling_is_ten_witness :
    execute h0 "t5" [] ⟨some "read_file", elevenParams⟩ =
      (.ok (.safetyFailed ⟨some "read_file", elevenParams⟩), [], []) :=
  C5_param_ceiling_is_ten h0 "t5" [] ⟨some "read_file", elevenParams⟩
    (by decide)

/-- An environment in which `tempfile.NamedTemporaryFile` itself raises:
no file reaches the disk and the local `temp_path` is never assigned. -/
def envMatFail : SandboxEnv :=
  ⟨"/tmp/tmpw41xyz", .createFail (.osError "No space left on device"),
   .runs ⟨0, 0, "", ""⟩, .runs ⟨0, 0, "", ""⟩⟩

/-- An environment in which the temp file is created but writing the source
into it raises: the file stays on disk and `temp_path` is never assigned. -/
def envWriteFail : SandboxEnv :=
  ⟨"/tmp/tmpw41abc", .writeFail (.osError "No space left on device"),
   .runs ⟨0, 0, "", ""⟩, .runs ⟨0, 0, "", ""⟩⟩

/-- C3.  When materializing the temp file fails, `run_code` does not return
a structured result: its `except Exception` handler begins with
`if os.path.exists(temp_path)`, and `temp_path` was never assigned, so the
handler itself raises `UnboundLocalError`, which escapes the call (and would
escape `ControlPlane.execute`, which wraps no try/except around handler
dispatch). -/
theorem C3_run_code_materialize_failure_raises :
    (run_code envMatFail fsEmpty "print(2+2)" "python").1 =
      .error (.unboundLocal "temp_path") := rfl

/-- C4 (counterexample).  On the materialization fault in which the temp
file is created but writing to it raises, the call exits by the raising
`except` handler and the temp source file is still on disk afterwards —
contradicting the claim that no temporary file survives any internal
fault. -/
theorem C4_counterexample_leaked_temp_file :
    (run_code envWriteFail fsEmpty "print(2+2)" "python").2
        "/tmp/tmpw41abc.py" = true ∧
    (run_code envWriteFail fsEmpty "print(2+2)" "python").1 =
      .error (.unboundLocal "temp_path") := by
  constructor
  · rfl
  · rfl

/-- C4 (amended).  For every `run_code` invocation on a supported language
in which the temp source file is successfully materialized, after the call
returns — normal completion, compilation failure, either timeout, spawn
failure on either phase — neither the temp source file nor the compiled
binary path exists (both assumed fresh before the call, as `tempfile`
guarantees for the source file). -/
theorem C4_cleanup_after_materialize
    (env : SandboxEnv) (fs : FS) (code language : String) (cfg : LangCfg)
    (hl : lang_config.lookup language = some cfg) (hm : env.mat = .ok)
    (ht : fs (env.tmpBase ++ cfg.ext) = false)
    (ho : fs ((env.tmpBase ++ cfg.ext).replace cfg.ext "") = false) :
    (run_code env fs code language).2 (env.tmpBase ++ cfg.ext) = false ∧
    (run_code env fs code language).2
      ((env.tmpBase ++ cfg.ext).replace cfg.ext "") = false := by
  rw [run_code_eq hl]
  unfold run_code_cfg
  rw [hm]
  cases hc : cfg.compile with
  | false =>
    cases h10 : subprocessRun 10 env.execProc with
    | timeout => exact ⟨condRemove_self _ _, cr_fa_other _ _ _ ho⟩
    | exn e => exact ⟨condRemove_self _ _, cr_fa_other _ _ _ ho⟩
    | completed q => exact ⟨fsRemove_self _ _, fr_fa_other _ _ _ ho⟩
  | true =>
    cases h30 : subprocessRun 30 env.compileProc with
    | timeout => exact ⟨cr_cr_self₁ _ _ _, condRemove_self _ _⟩
    | exn e => exact ⟨cr_cr_self₁ _ _ _, condRemove_self _ _⟩
    | completed p =>
      by_cases hz : p.exitCode ≠ 0
      · simp only [if_pos hz]
        exact ⟨fsRemove_self _ _, fr_fa_other _ _ _ ho⟩
      · simp only [if_neg hz]
        cases h10 : subprocessRun 10 env.execProc with
        | timeout => exact ⟨cr_cr_self₁ _ _ _, condRemove_self _ _⟩
        | exn e => exact ⟨cr_cr_self₁ _ _ _, condRemove_self _ _⟩
        | completed q => exact ⟨cr_fr_self _ _ _, condRemove_self _ _⟩

/-- A successful compiled-language run. -/
def envC4 : SandboxEnv :=
  ⟨"/tmp/tmpc4x", .ok, .runs ⟨2, 0, "", ""⟩, .runs ⟨1, 0, "ok", ""⟩⟩

/-- C4 (witness): a concrete C job leaves neither the source nor the binary
path behind. -/
theorem C4_cleanup_after_materialize_witness :
    (run_code envC4 fsEmpty "main" "c").2 ("/tmp/tmpc4x" ++ ".c") = false ∧
    (run_code envC4 fsEmpty "main" "c").2
      (("/tmp/tmpc4x" ++ ".c").replace ".c" "") = false :=
  C4_cleanup_after_materialize envC4 fsEmpty "main" "c"
    ⟨".c", [], true, "gcc"⟩ (by decide) rfl rfl rfl

/-- C6.  Whenever the execution phase completes within its 10-second budget
— for interpreted languages directly, and for compiled languages after a
compile that finishes in budget with exit code 0 — the result is the
`status: "success"` dict carrying the program's stdout, stderr and exit code
verbatim, whatever the exit code and stderr are. -/
theorem C6_nonzero_exit_still_success :
    (∀ (env : SandboxEnv) (fs : FS) (code language : String) (cfg : LangCfg)
        (p : ProcRun),
        lang_config.lookup language = some cfg → cfg.compile = false →
        env.mat = .ok → env.execProc = .runs p → p.duration ≤ 10 →
        (run_code env fs code language).1 =
          .ok (.success language p.stdout p.stderr p.exitCode)) ∧
    (∀ (env : SandboxEnv) (fs : FS) (code language : String) (cfg : LangCfg)
        (c p : ProcRun),
        lang_config.lookup language = some cfg → cfg.compile = true →
        env.mat = .ok → env.compileProc = .runs c → c.duration ≤ 30 →
        c.exitCode = 0 → env.execProc = .runs p → p.duration ≤ 10 →
        (run_code env fs code language).1 =
          .ok (.success language p.stdout p.stderr p.exitCode)) := by
  constructor
  · intro env fs code language cfg p hl hc hm he hd
    simp only [run_code_eq hl, run_code_cfg, hm, hc, he,
      subprocessRun_runs_le hd]
    rfl
  · intro env fs code language cfg c p hl hc hm hcp h30 hz he hd
    simp only [run_code_eq hl, run_code_cfg, hm, hc, hcp,
      subprocessRun_runs_le h30, hz, he, subprocessRun_runs_le hd]
    rfl

/-- The `print(1/0)` scenario: the interpreter runs (1 second), exits 1,
and writes the runtime error name to stderr. -/
def envZeroDiv : SandboxEnv :=
  ⟨"/tmp/tmpzd1", .ok, .runs ⟨0, 0, "", ""⟩,
   .runs ⟨1, 1, "",
     "Traceback (most recent call last): ZeroDivisionError: division by zero"⟩⟩

/-- C6 (witness): the Python `print(1/0)` job yields the success dict with
non-zero exit code and the error name on stderr. -/
theorem C6_nonzero_exit_still_success_witness :
    (run_code envZeroDiv fsEmpty "print(1/0)" "python").1 =
      .ok (.success "python" ""
        "Traceback (most recent call last): ZeroDivisionError: division by zero"
        1) :=
  C6_nonzero_exit_still_success.1 envZeroDiv fsEmpty "print(1/0)" "python"
    ⟨".py", ["python3"], false, ""⟩
    ⟨1, 1, "",
     "Traceback (most recent call last): ZeroDivisionError: division by zero"⟩
    (by decide) rfl rfl rfl (by decide)

/-- C7.  A compile phase needing more than 30 seconds, or an execution phase
needing more than 10 seconds (reached directly for interpreted languages, or
after an in-budget exit-0 compile), makes `run_code` return the timeout
error dict; each child process is consulted exactly once per call, so no
retry occurs. -/
theorem C7_timeout_reported :
    (∀ (env : SandboxEnv) (fs : FS) (code language : String) (cfg : LangCfg)
        (c : ProcRun),
        lang_config.lookup language = some cfg → cfg.compile = true →
        env.mat = .ok → env.compileProc = .runs c → c.duration > 30 →
        (run_code env fs code language).1 = .ok (.errorMsg timeoutMsg)) ∧
    (∀ (env : SandboxEnv) (fs : FS) (code language : String) (cfg : LangCfg)
        (p : ProcRun),
        lang_config.lookup language = some cfg → cfg.compile = false →
        env.mat = .ok → env.execProc = .runs p → p.duration > 10 →
        (run_code env fs code language).1 = .ok (.errorMsg timeoutMsg)) ∧
    (∀ (env : SandboxEnv) (fs : FS) (code language : String) (cfg : LangCfg)
        (c p : ProcRun),
        lang_config.lookup language = some cfg → cfg.compile = true →
        env.mat = .ok → env.compileProc = .runs c → c.duration ≤ 30 →
        c.exitCode = 0 → env.execProc = .runs p → p.duration > 10 →
        (run_code env fs code language).1 = .ok (.errorMsg timeoutMsg)) := by
  refine ⟨?_, ?_, ?_⟩
  · intro env fs code language cfg c hl hc hm hcp hd
    simp only [run_code_eq hl, run_code_cfg, hm, hc, hcp,
      subprocessRun_runs_gt hd]
    rfl
  · intro env fs code language cfg p hl hc hm he hd
    simp only [run_code_eq hl, run_code_cfg, hm, hc, he,
      subprocessRun_runs_gt hd]
    rfl
  · intro env fs code language cfg c p hl hc hm hcp h30 hz he hd
    simp only [run_code_eq hl, run_code_cfg, hm, hc, hcp,
      subprocessRun_runs_le h30, hz, he, subprocessRun_runs_gt hd]
    rfl

/-- A Rust job whose compiler needs 31 seconds. -/
def envCompileHang : SandboxEnv :=
  ⟨"/tmp/tmpch1", .ok, .runs ⟨31, 0, "", ""⟩, .runs ⟨0, 0, "", ""⟩⟩

/-- C7 (witness): a compile running past 30 seconds yields the timeout error
dict. -/
theorem C7_timeout_reported_witness :
    (run_code envCompileHang fsEmpty "fn main" "rust").1 =
      .ok (.errorMsg timeoutMsg) :=
  C7_timeout_reported.1 envCompileHang fsEmpty "fn main" "rust"
    ⟨".rs", [], true, "rustc"⟩ ⟨31, 0, "", ""⟩ (by decide) rfl rfl rfl
    (by decide)

/-- C8 (counterexample).  No fixed bound dominates the stdout `run_code`
returns: the executed program's captured output is passed through whole, so
for every candidate bound there is a run whose reported stdout is longer —
contradicting the claim that captured output is size-bounded in the
result. -/
theorem C8_counterexample_unbounded_stdout : ¬ run_code_stdout_bounded := by
  rintro ⟨N, hN⟩
  have h := hN
    ⟨"/tmp/tmpbig", .ok, .runs ⟨0, 0, "", ""⟩,
     .runs ⟨0, 0, String.mk (List.replicate (N + 1) 'a'), ""⟩⟩
    fsEmpty "x" "python"
  have hs : rcStdout
      (run_code
        ⟨"/tmp/tmpbig", .ok, .runs ⟨0, 0, "", ""⟩,
         .runs ⟨0, 0, String.mk (List.replicate (N + 1) 'a'), ""⟩⟩
        fsEmpty "x" "python") = String.mk (List.replicate (N + 1) 'a') := rfl
  rw [hs] at h
  simp only [String.length, List.length_replicate] at h
  omega

/-- The stderr string the caller reads off a `run_code` outcome. -/
def rcStderr : Except PyExn RCResult × FS → String
  | (.ok (.success _ _ se _), _) => se
  | (.ok (.compilationError _ se _), _) => se
  | _ => ""

/-- C8 (amended).  `run_code` applies no truncation at all: a completed
execution's stdout and stderr are returned exactly as captured, and a failed
compile's stderr is surfaced verbatim as the diagnostic. -/
theorem C8_outputs_not_truncated :
    (∀ (env : SandboxEnv) (fs : FS) (code language : String) (cfg : LangCfg)
        (p : ProcRun),
        lang_config.lookup language = some cfg → cfg.compile = false →
        env.mat = .ok → env.execProc = .runs p → p.duration ≤ 10 →
        rcStdout (run_code env fs code language) = p.stdout ∧
        rcStderr (run_code env fs code language) = p.stderr) ∧
    (∀ (env : SandboxEnv) (fs : FS) (code language : String) (cfg : LangCfg)
        (c : ProcRun),
        lang_config.lookup language = some cfg → cfg.compile = true →
        env.mat = .ok → env.compileProc = .runs c → c.duration ≤ 30 →
        c.exitCode ≠ 0 →
        (run_code env fs code language).1 =
          .ok (.compilationError language c.stderr c.exitCode)) := by
  constructor
  · intro env fs code language cfg p hl hc hm he hd
    simp only [run_code_eq hl, run_code_cfg, hm, hc, he,
      subprocessRun_runs_le hd]
    exact ⟨rfl, rfl⟩
  · intro env fs code language cfg c hl hc hm hcp h30 hz
    simp only [run_code_eq hl, run_code_cfg, hm, hc, hcp,
      subprocessRun_runs_le h30, if_pos hz]
    rfl

/-- A C++ job with a deliberately broken source: the compiler exits 1 with a
diagnostic. -/
def envBadCpp : SandboxEnv :=
  ⟨"/tmp/tmpbc1", .ok, .runs ⟨1, 1, "", "error: expected declaration"⟩,
   .runs ⟨0, 0, "", ""⟩⟩

/-- C8 (witness): a completed run returns its outputs verbatim, and a failed
C++ compile surfaces the compiler's stderr as the diagnostic. -/
theorem C8_outputs_not_truncated_witness :
    (rcStdout (run_code envZeroDiv fsEmpty "print(1/0)" "python") = "" ∧
     rcStderr (run_code envZeroDiv fsEmpty "print(1/0)" "python") =
       "Traceback (most recent call last): ZeroDivisionError: division by zero") ∧
    (run_code envBadCpp fsEmpty "int x" "cpp").1 =
      .ok (.compilationError "cpp" "error: expected declaration" 1) :=
  ⟨C8_outputs_not_truncated.1 envZeroDiv fsEmpty "print(1/0)" "python"
      ⟨".py", ["python3"], false, ""⟩
      ⟨1, 1, "",
       "Traceback (most recent call last): ZeroDivisionError: division by zero"⟩
      (by decide) rfl rfl rfl (by decide),
   C8_outputs_not_truncated.2 envBadCpp fsEmpty "int x" "cpp"
      ⟨".cpp", [], true, "g++"⟩ ⟨1, 1, "", "error: expected declaration"⟩
      (by decide) rfl rfl rfl (by decide) (by decide)⟩

/-- C9.  Whenever the canonicalized target starts with none of the safe
directories, `write_file` and `delete_file` both return their
permission-denied dicts and return the file map unchanged: the guard runs
before any mutation, so nothing is created, modified or removed. -/
theorem C9_outside_roots_refused
    (env : OSEnv) (fs : FileMap) (path content : String)
    (h : safe_write_directories.any
        (fun d => pyStartswith (env.abspath path) d) = false) :
    write_file env fs path content =
      (.permissionDenied
        "permission denied: can only write to [/app/uploads, /tmp]", fs) ∧
    delete_file env fs path =
      (.permissionDenied
        "permission denied: can only delete from safe directories", fs) := by
  constructor
  · simp only [write_file, h]
    rfl
  · simp only [delete_file, h]
    rfl

/-- C9 (witness): a write and a delete aimed at /etc/passwd are both
refused with the file map untouched. -/
theorem C9_outside_roots_refused_witness :
    write_file osId [] "/etc/passwd" "x" =
      (.permissionDenied
        "permission denied: can only write to [/app/uploads, /tmp]", []) ∧
    delete_file osId [] "/etc/passwd" =
      (.permissionDenied
        "permission denied: can only delete from safe directories", []) :=
  C9_outside_roots_refused osId [] "/etc/passwd" "x" (by decide)

/-- C10.  The guard is a plain `startswith` with no path-separator boundary:
"/tmpdata/x" is not inside the safe directory "/tmp" (it is neither "/tmp"
itself nor under "/tmp/"), yet it begins with the characters "/tmp", so the
check passes and the write proceeds, creating the file. -/
theorem C10_startswith_no_boundary :
    pyStartswith "/tmpdata/x" "/tmp" = true ∧
    pyStartswith "/tmpdata/x" "/tmp/" = false ∧
    "/tmpdata/x" ≠ "/tmp" ∧
    pyStartswith "/tmpdata/x" "/app/uploads" = false ∧
    write_file osId [] "/tmpdata/x" "owned" =
      (.writeOk "/tmpdata/x" 5, [("/tmpdata/x", "owned")]) := by
  refine ⟨?_, ?_, ?_, ?_, ?_⟩ <;> decide

end Aura
